import Mathlib

/-!
Shallow embedding of the momentarium background-processing pipeline:
the relational data model and the database helpers of `src/lib/db.ts`,
the AI batch adapter of `src/lib/ai.ts`, the pipeline-worker webhook
`src/app/api/jobs/process/route.ts`, the job-creation route
`src/app/api/galleries/process/route.ts` and the status-poll route
`src/app/api/jobs/[jobId]/status/route.ts`.

Machine integers are modelled as `Int`/`Nat` (JavaScript numbers in the
relevant ranges), timestamps as an abstract `Nat` clock supplied by the
caller, and each external collaborator (the S3 presigner, the Gemini
model reply, the configured shared secret) as an explicit parameter of
the handler, so that a single handler invocation is a pure function from
the request, the collaborator oracles, and the database state to an HTTP
status plus the new database state.
-/

namespace Momentarium

/-- One row of the `images` table (`src/types/index.ts`, interface Image;
only the columns the pipeline reads). -/
structure ImageRow where
  id : Nat
  user_id : Int
  storage_key : String
  deriving Repr, DecidableEq

/-- One row of the `albums` table. -/
structure AlbumRow where
  id : Nat
  user_id : Int
  title : String
  theme_description : Option String
  deriving Repr, DecidableEq

/-- One row of the `album_images` join table. -/
structure AlbumImageRow where
  album_id : Nat
  image_id : Nat
  display_order : Nat
  deriving Repr, DecidableEq

/-- Job status enum (`src/types/index.ts`, type JobStatus). -/
inductive JobStatus where
  | pending
  | processing
  | completed
  | failed
  deriving Repr, DecidableEq

/-- A generated album inside an AI proposal (`src/types/index.ts`,
interface GeneratedAlbum). -/
structure GeneratedAlbum where
  title : String
  theme : String
  image_keys : List String
  deriving Repr, DecidableEq

/-- The AI proposal (`src/types/index.ts`, interface AlbumGenerationResult). -/
structure AlbumGenerationResult where
  albums : List GeneratedAlbum
  deriving Repr, DecidableEq

/-- One row of the `processing_jobs` table. -/
structure JobRow where
  id : String
  user_id : Int
  status : JobStatus
  image_keys : List String
  result_data : Option AlbumGenerationResult
  error_message : Option String
  created_at : Nat
  started_at : Option Nat
  completed_at : Option Nat
  deriving Repr, DecidableEq

/-- The relational store the pipeline reads and writes.  `nextImageId` and
`nextAlbumId` model the serial primary-key sequences. -/
structure DbState where
  images : List ImageRow
  albums : List AlbumRow
  album_images : List AlbumImageRow
  jobs : List JobRow
  nextImageId : Nat
  nextAlbumId : Nat
  deriving Repr, DecidableEq

/-- A database error surfaced to JavaScript; `code` carries the Postgres
error code (unique-constraint violations are `23505`). -/
structure DbError where
  code : String
  deriving Repr, DecidableEq

/-- `imageDb.create` (`src/lib/db.ts`): plain INSERT into `images`.  The
UNIQUE constraint on `storage_key` makes a duplicate-key insert raise an
error with code 23505; otherwise a fresh row is appended. -/
def imageDbCreate (db : DbState) (userId : Int) (storageKey : String) :
    Except DbError (DbState × ImageRow) :=
  if db.images.any (fun r => r.storage_key == storageKey) then
    .error ⟨"23505"⟩
  else
    let row : ImageRow := ⟨db.nextImageId, userId, storageKey⟩
    .ok ({ db with images := db.images ++ [row], nextImageId := db.nextImageId + 1 }, row)

/-- `imageDb.findByStorageKeys` (`src/lib/db.ts`):
SELECT * FROM images WHERE storage_key = ANY(keys); rows come back in
table order. -/
def imageDbFindByStorageKeys (db : DbState) (storageKeys : List String) : List ImageRow :=
  db.images.filter (fun r => storageKeys.contains r.storage_key)

/-- `albumDb.create` (`src/lib/db.ts`): INSERT into `albums` with a fresh id;
the JavaScript passes `themeDescription || null`, so an empty theme string
is stored as NULL. -/
def albumDbCreate (db : DbState) (userId : Int) (title : String)
    (themeDescription : Option String) : DbState × AlbumRow :=
  let theme := match themeDescription with
    | none => none
    | some t => if t == "" then none else some t
  let row : AlbumRow := ⟨db.nextAlbumId, userId, title, theme⟩
  ({ db with albums := db.albums ++ [row], nextAlbumId := db.nextAlbumId + 1 }, row)

/-- One row `(albumId, imageIds[i], i)` of the `albumDb.addImages` INSERT:
ON CONFLICT (album_id, image_id) DO NOTHING skips the row when the pair
already exists (also against a row inserted earlier in the same
statement), otherwise the row is appended with `display_order := i`. -/
def addImagesStep (albumId : Nat) (st : DbState) (p : Nat × Nat) : DbState :=
  if st.album_images.any (fun l => l.album_id == albumId && l.image_id == p.2) then
    st
  else
    { st with album_images := st.album_images ++ [⟨albumId, p.2, p.1⟩] }

/-- `albumDb.addImages` (`src/lib/db.ts`): a single INSERT of the rows
`(albumId, imageIds[i], i)` with ON CONFLICT (album_id, image_id) DO
NOTHING — the VALUES list pairs each image id with its index in
`imageIds`. -/
def albumDbAddImages (db : DbState) (albumId : Nat) (imageIds : List Nat) : DbState :=
  (imageIds.enum).foldl (addImagesStep albumId) db

/-- `jobDb.findById` (`src/lib/db.ts`). -/
def jobDbFindById (db : DbState) (id : String) : Option JobRow :=
  db.jobs.find? (fun j => j.id == id)

/-- Apply the column updates of `jobDb.updateStatus` to one matching row:
`processing` stamps `started_at`, `completed` stamps `completed_at` and
`result_data`, `failed` stamps `completed_at` and `error_message`, and any
other status only overwrites the status column. -/
def applyStatusUpdate (j : JobRow) (status : JobStatus)
    (resultData : Option AlbumGenerationResult) (errorMessage : Option String)
    (now : Nat) : JobRow :=
  match status with
  | .processing => { j with status := .processing, started_at := some now }
  | .completed =>
      { j with status := .completed, completed_at := some now, result_data := resultData }
  | .failed =>
      { j with status := .failed, completed_at := some now, error_message := errorMessage }
  | s => { j with status := s }

/-- `jobDb.updateStatus` (`src/lib/db.ts`): an unconditional
UPDATE ... WHERE id = $n RETURNING *.  There is no expected-prior-status
guard; when no row matches, zero rows are updated and `rows[0]` is
`undefined` (here `none`) — no error is raised. -/
def jobDbUpdateStatus (db : DbState) (id : String) (status : JobStatus)
    (resultData : Option AlbumGenerationResult) (errorMessage : Option String)
    (now : Nat) : DbState × Option JobRow :=
  match db.jobs.find? (fun j => j.id == id) with
  | none => (db, none)
  | some j =>
      let j2 := applyStatusUpdate j status resultData errorMessage now
      ({ db with jobs := db.jobs.map (fun r => if r.id == id then j2 else r) }, some j2)

/-! ## AI batch adapter (`src/lib/ai.ts`) -/

/-- A parsed album object as JavaScript sees it after `JSON.parse`:
`title`/`theme` are the string values (a missing or empty field is the
falsy `""`), and `image_keys` is `none` when the field is absent or not
an array. -/
structure ParsedAlbum where
  title : String
  theme : String
  image_keys : Option (List String)
  deriving Repr, DecidableEq

/-- The parsed model reply: `albums` is `none` when the field is absent
or not an array. -/
structure ParsedReply where
  albums : Option (List ParsedAlbum)
  deriving Repr, DecidableEq

/-- The per-album validation loop of `generateAlbums`: walk the albums in
order and throw on the first album with a falsy `title`, a falsy `theme`,
or an `image_keys` that is not an array. -/
def validateAlbumList : List ParsedAlbum → Except String Unit
  | [] => .ok ()
  | a :: rest =>
      if a.title == "" || a.theme == "" || a.image_keys.isNone then
        .error "Invalid album structure in AI response"
      else
        validateAlbumList rest

/-- The parse-and-validate tail of `generateAlbums` (`src/lib/ai.ts`
lines 100-114), starting from the parsed reply: reject when `albums` is
missing or not an array, run the per-album loop, and otherwise return the
reply as the proposal. -/
def generateAlbumsValidate (r : ParsedReply) : Except String AlbumGenerationResult :=
  match r.albums with
  | none => .error "Invalid response structure from AI model"
  | some albums =>
      match validateAlbumList albums with
      | .error e => .error e
      | .ok _ =>
          .ok ⟨albums.map (fun a => ⟨a.title, a.theme, a.image_keys.getD []⟩)⟩

/-- `generateAlbums` as a function of the external model interaction:
`reply` is `.error e` when the network call, the reply text or
`JSON.parse` fails, and `.ok r` when a JSON value was parsed; the
function then applies the validation of the source.  Every failure is
re-thrown, so the caller sees a single `Except`. -/
def generateAlbums (reply : Except String ParsedReply) :
    Except String AlbumGenerationResult :=
  match reply with
  | .error e => .error e
  | .ok r => generateAlbumsValidate r

/-- `createFallbackAlbum` (`src/lib/ai.ts` lines 124-134). -/
def createFallbackAlbum (imageKeys : List String) : AlbumGenerationResult :=
  { albums :=
      [{ title := "My Photo Collection",
         theme := "A collection of memorable moments and beautiful scenes.",
         image_keys := imageKeys }] }

/-! ## UUID shape check

`z.string().uuid()` in the worker's request schema and the explicit
`uuidRegex` of the status route both accept the 8-4-4-4-12 hex-digit
shape, case-insensitively. -/

/-- A case-insensitive hexadecimal digit. -/
def isHexDigitCI (c : Char) : Bool :=
  c.isDigit || (('a' ≤ c && c ≤ 'f') || ('A' ≤ c && c ≤ 'F'))

/-- Split a character list at every dash, keeping empty groups — the
behaviour of splitting a string on the `-` character. -/
def splitDash : List Char → List (List Char)
  | [] => [[]]
  | c :: rest =>
      if c == '-' then [] :: splitDash rest
      else
        match splitDash rest with
        | [] => [[c]]
        | g :: gs => (c :: g) :: gs

/-- The 8-4-4-4-12 UUID shape test used by both routes. -/
def isUuid (s : String) : Bool :=
  match splitDash s.toList with
  | [a, b, c, d, e] =>
      a.length == 8 && b.length == 4 && c.length == 4 && d.length == 4 &&
      e.length == 12 && (a ++ b ++ c ++ d ++ e).all isHexDigitCI
  | _ => false

/-! ## Pipeline worker (`src/app/api/jobs/process/route.ts`) -/

/-- The decoded callback body `{jobId, userId, imageKeys}` before schema
validation. -/
structure RawPayload where
  jobId : String
  userId : Int
  imageKeys : List String
  deriving Repr, DecidableEq

/-- The zod `requestSchema` of the worker: `jobId` a UUID, `userId` a
positive integer, `imageKeys` a non-empty string array. -/
def validPayload (p : RawPayload) : Bool :=
  isUuid p.jobId && decide (0 < p.userId) && decide (1 ≤ p.imageKeys.length)

/-- The outcome of one callback invocation: the HTTP status code of the
response, the `albumsCreated` count of a success body, the database state
after the invocation, and the ordered list of `jobDb.updateStatus` calls
the invocation issued (job id and written status). -/
structure HandlerResult where
  httpStatus : Nat
  albumsCreated : Option Nat
  db : DbState
  writes : List (String × JobStatus)
  deriving Repr, DecidableEq

/-- The per-album body of the materialization loop (worker lines 78-98):
create the album row, filter the resolved images to those whose storage
key appears in the proposal entry, and link them — the `display_order`
passed to `albumDb.addImages` is the index within that filtered list. -/
def materializeOne (userId : Int) (images : List ImageRow) (db : DbState)
    (albumData : GeneratedAlbum) : DbState :=
  let created := albumDbCreate db userId albumData.title (some albumData.theme)
  let albumImages := images.filter (fun img => albumData.image_keys.contains img.storage_key)
  let imageIds := albumImages.map (fun img => img.id)
  if imageIds.length > 0 then
    albumDbAddImages created.1 created.2.id imageIds
  else
    created.1

/-- The whole materialization loop over a proposal. -/
def materializeAlbums (userId : Int) (images : List ImageRow) (db : DbState)
    (proposal : AlbumGenerationResult) : DbState :=
  proposal.albums.foldl (materializeOne userId images) db

/-- `Promise.all(images.map(generateDownloadUrl))`: the S3 presigner is the
oracle `urlGen`; the first rejection wins. -/
def resolveUrls (urlGen : String → Except String String) :
    List ImageRow → Except String (List (String × String))
  | [] => .ok []
  | img :: rest =>
      match urlGen img.storage_key with
      | .error e => .error e
      | .ok u =>
          match resolveUrls urlGen rest with
          | .error e => .error e
          | .ok us => .ok ((img.storage_key, u) :: us)

/-- The proposal the worker materializes: the AI result, or on any adapter
failure the fallback album over the job's submitted keys (worker
lines 68-75). -/
def effectiveProposal (aiReply : Except String ParsedReply)
    (imageKeys : List String) : AlbumGenerationResult :=
  match generateAlbums aiReply with
  | .error _ => createFallbackAlbum imageKeys
  | .ok r => r

/-- The authentication gate of the worker: the header check
`!apiSecret || !verifyApiSecret(apiSecret)` treats a missing or empty
`X-API-Secret` header as falsy, and `verifyApiSecret`
(`src/lib/queue.ts`) is string equality with `config.app.apiSecretKey`. -/
def secretAccepted (configSecret : String) (apiSecret : Option String) : Bool :=
  match apiSecret with
  | none => false
  | some s => !(s == "") && s == configSecret

/-- The POST handler of `src/app/api/jobs/process/route.ts` as a pure
function.  Parameters: `configSecret` is `config.app.apiSecretKey`,
`urlGen` the S3 presigner, `aiReply` the Gemini interaction outcome,
`now` the clock, `apiSecret` the `X-API-Secret` header (`none` when
absent), `payload` the decoded JSON body, `db` the store. -/
def processPOST (configSecret : String) (urlGen : String → Except String String)
    (aiReply : Except String ParsedReply) (now : Nat)
    (apiSecret : Option String) (payload : RawPayload) (db : DbState) :
    HandlerResult :=
  if !(secretAccepted configSecret apiSecret) then
    ⟨401, none, db, []⟩
  else if !validPayload payload then
    ⟨400, none, db, []⟩
  else
    let db1 := (jobDbUpdateStatus db payload.jobId .processing none none now).1
    let images := imageDbFindByStorageKeys db1 payload.imageKeys
    if images.length == 0 then
      let msg := "No images found for the provided keys"
      let db2 := (jobDbUpdateStatus db1 payload.jobId .failed none (some msg) now).1
      ⟨500, none, db2,
        [(payload.jobId, .processing), (payload.jobId, .failed)]⟩
    else
      match resolveUrls urlGen images with
      | .error e =>
          let db2 := (jobDbUpdateStatus db1 payload.jobId .failed none (some e) now).1
          ⟨500, none, db2,
            [(payload.jobId, .processing), (payload.jobId, .failed)]⟩
      | .ok _ =>
          let albumsResult := effectiveProposal aiReply payload.imageKeys
          let db2 := materializeAlbums payload.userId images db1 albumsResult
          let db3 :=
            (jobDbUpdateStatus db2 payload.jobId .completed (some albumsResult) none now).1
          ⟨200, some albumsResult.albums.length, db3,
            [(payload.jobId, .processing), (payload.jobId, .completed)]⟩

/-! ## Status poll (`src/app/api/jobs/[jobId]/status/route.ts`) -/

/-- The response of one status poll: the HTTP status and, on 200, the
reported job status and the constructed `resultUrl`. -/
structure StatusResponse where
  httpStatus : Nat
  jobStatus : Option JobStatus
  resultUrl : Option String
  deriving Repr, DecidableEq

/-- The GET handler: 400 for an id that fails the UUID regex, 404 when no
job row matches, otherwise 200 with `resultUrl` present only for a
completed job. -/
def statusGET (db : DbState) (jobId : String) : StatusResponse :=
  if !isUuid jobId then
    ⟨400, none, none⟩
  else
    match jobDbFindById db jobId with
    | none => ⟨404, none, none⟩
    | some job =>
        let url := if job.status == .completed then
            some ("/api/galleries/" ++ toString job.user_id)
          else none
        ⟨200, some job.status, url⟩

/-! ## Image registry `ensure` (`src/app/api/galleries/process/route.ts`) -/

/-- The per-key registration of the job-creation route (lines 32-44):
`imageDb.create(...).catch` absorbing a unique-constraint conflict
(error code 23505) and re-throwing anything else. -/
def ensureImage (db : DbState) (userId : Int) (storageKey : String) :
    Except DbError DbState :=
  match imageDbCreate db userId storageKey with
  | .ok r => .ok r.1
  | .error e => if e.code == "23505" then .ok db else .error e

/-! ## Derived observations used by the properties -/

/-- The statuses one handler invocation wrote to a given job id, in call
order. -/
def writesFor (id : String) (r : HandlerResult) : List JobStatus :=
  (r.writes.filter (fun w => w.1 == id)).map (fun w => w.2)

/-- The status histories allowed by the lifecycle
`pending → processing → (completed or failed)`: every entry is a prefix
of the full chain, so the status never regresses and never skips
`processing`. -/
def legalHistory (h : List JobStatus) : Bool :=
  h == [] || h == [.pending] || h == [.pending, .processing] ||
  h == [.pending, .processing, .completed] || h == [.pending, .processing, .failed]

/-- Number of `images` rows holding a given storage key. -/
def countImagesWithKey (db : DbState) (key : String) : Nat :=
  (db.images.filter (fun r => r.storage_key == key)).length

/-- The spec's reading of the link order (written from the spec sentence,
for comparison with the code's behaviour): every link of the given album
carries as `display_order` the position of its image's storage key within
that album's `image_keys` list in the proposal. -/
def specDisplayOrderFromKeyList (links : List AlbumImageRow) (images : List ImageRow)
    (albumId : Nat) (keyList : List String) : Bool :=
  links.all (fun l =>
    l.album_id != albumId ||
      (match images.find? (fun i => i.id == l.image_id) with
       | some img => l.display_order == keyList.indexOf img.storage_key
       | none => true))

/-! ## Concrete fixtures for witnesses and counterexamples -/

/-- A well-formed job id. -/
def exJobId : String := "11111111-1111-1111-1111-111111111111"

/-- A pending job for user 7 over the two example keys. -/
def exJob : JobRow :=
  ⟨exJobId, 7, .pending, ["a.jpg", "b.jpg"], none, none, 0, none, none⟩

/-- Two registered images for user 7, table order `a.jpg` then `b.jpg`,
plus the pending job. -/
def exDb : DbState :=
  { images := [⟨1, 7, "a.jpg"⟩, ⟨2, 7, "b.jpg"⟩],
    albums := [], album_images := [],
    jobs := [exJob],
    nextImageId := 3, nextAlbumId := 1 }

/-- The same store with the job present but no image registered for its
keys. -/
def exDbNoImages : DbState := { exDb with images := [] }

/-- The same store with the images registered but no job row — the
callback's jobId matches nothing. -/
def exDbNoJob : DbState := { exDb with jobs := [] }

/-- The callback payload matching `exDb`. -/
def exPayload : RawPayload := ⟨exJobId, 7, ["a.jpg", "b.jpg"]⟩

/-- A presigner that always succeeds. -/
def urlOk : String → Except String String := fun k => .ok ("https://s3/" ++ k)

/-- A presigner whose signing call rejects. -/
def urlDown : String → Except String String := fun _ => .error "S3 presign failed"

/-- A parsed model reply placing the two images in one album but listing
the keys in the order `b.jpg`, `a.jpg` — the reverse of the registry
order. -/
def aiPermutedReply : Except String ParsedReply :=
  .ok ⟨some [⟨"Seaside", "Blue hour by the shore.", some ["b.jpg", "a.jpg"]⟩]⟩

/-- An adapter interaction that failed at the network layer. -/
def aiNetworkDown : Except String ParsedReply := .error "fetch failed"

/-- First delivery of the callback for `exDb`'s job (AI down, fallback). -/
def firstDelivery : HandlerResult :=
  processPOST "sec" urlOk aiNetworkDown 5 (some "sec") exPayload exDb

/-- A duplicate delivery of the same callback, handled after the first one
finished (the at-least-once queue may redeliver). -/
def secondDelivery : HandlerResult :=
  processPOST "sec" urlOk aiNetworkDown 9 (some "sec") exPayload firstDelivery.db

/-! ## Helper lemmas -/

theorem applyStatusUpdate_id (j : JobRow) (s : JobStatus)
    (rd : Option AlbumGenerationResult) (em : Option String) (now : Nat) :
    (applyStatusUpdate j s rd em now).id = j.id := by
  cases s <;> rfl

theorem jobDbUpdateStatus_images (db : DbState) (id : String) (s : JobStatus)
    (rd : Option AlbumGenerationResult) (em : Option String) (now : Nat) :
    (jobDbUpdateStatus db id s rd em now).1.images = db.images := by
  unfold jobDbUpdateStatus
  cases db.jobs.find? (fun j => j.id == id) <;> rfl

theorem jobDbUpdateStatus_albums (db : DbState) (id : String) (s : JobStatus)
    (rd : Option AlbumGenerationResult) (em : Option String) (now : Nat) :
    (jobDbUpdateStatus db id s rd em now).1.albums = db.albums := by
  unfold jobDbUpdateStatus
  cases db.jobs.find? (fun j => j.id == id) <;> rfl

theorem jobDbUpdateStatus_album_images (db : DbState) (id : String) (s : JobStatus)
    (rd : Option AlbumGenerationResult) (em : Option String) (now : Nat) :
    (jobDbUpdateStatus db id s rd em now).1.album_images = db.album_images := by
  unfold jobDbUpdateStatus
  cases db.jobs.find? (fun j => j.id == id) <;> rfl

theorem jobDbUpdateStatus_of_missing (db : DbState) (id : String) (s : JobStatus)
    (rd : Option AlbumGenerationResult) (em : Option String) (now : Nat)
    (h : jobDbFindById db id = none) :
    jobDbUpdateStatus db id s rd em now = (db, none) := by
  unfold jobDbUpdateStatus
  unfold jobDbFindById at h
  rw [h]

theorem find_map_update (l : List JobRow) (id : String) (j j2 : JobRow)
    (hid : (j2.id == id) = true)
    (h : l.find? (fun r => r.id == id) = some j) :
    (l.map (fun r => if r.id == id then j2 else r)).find? (fun r => r.id == id) =
      some j2 := by
  induction l with
  | nil => simp at h
  | cons r t ih =>
      by_cases hr : (r.id == id) = true
      · simp only [List.map_cons, if_pos hr]
        exact List.find?_cons_of_pos _ hid
      · have hrne : ¬ ((fun r : JobRow => r.id == id) r = true) := hr
        rw [@List.find?_cons_of_neg JobRow (fun r => r.id == id) r t hrne] at h
        simp only [List.map_cons, if_neg hr]
        rw [@List.find?_cons_of_neg JobRow (fun r => r.id == id) r _ hrne]
        exact ih h

theorem jobDbFindById_update (db : DbState) (id : String) (j : JobRow)
    (s : JobStatus) (rd : Option AlbumGenerationResult) (em : Option String)
    (now : Nat) (h : jobDbFindById db id = some j) :
    jobDbFindById (jobDbUpdateStatus db id s rd em now).1 id =
      some (applyStatusUpdate j s rd em now) := by
  unfold jobDbFindById at h ⊢
  unfold jobDbUpdateStatus
  rw [h]
  have hid : ((applyStatusUpdate j s rd em now).id == id) = true := by
    rw [applyStatusUpdate_id]
    have := List.find?_some h
    simpa using this
  simpa using find_map_update db.jobs id j _ hid h

theorem addImagesStep_jobs (aid : Nat) (st : DbState) (p : Nat × Nat) :
    (addImagesStep aid st p).jobs = st.jobs := by
  unfold addImagesStep
  split <;> rfl

theorem addImagesStep_albums (aid : Nat) (st : DbState) (p : Nat × Nat) :
    (addImagesStep aid st p).albums = st.albums := by
  unfold addImagesStep
  split <;> rfl

theorem addImagesStep_images (aid : Nat) (st : DbState) (p : Nat × Nat) :
    (addImagesStep aid st p).images = st.images := by
  unfold addImagesStep
  split <;> rfl

theorem addImagesFold_jobs (aid : Nat) (l : List (Nat × Nat)) :
    ∀ st : DbState, (l.foldl (addImagesStep aid) st).jobs = st.jobs := by
  induction l with
  | nil => intro st; rfl
  | cons p t ih =>
      intro st
      rw [List.foldl_cons, ih, addImagesStep_jobs]

theorem addImagesFold_albums (aid : Nat) (l : List (Nat × Nat)) :
    ∀ st : DbState, (l.foldl (addImagesStep aid) st).albums = st.albums := by
  induction l with
  | nil => intro st; rfl
  | cons p t ih =>
      intro st
      rw [List.foldl_cons, ih, addImagesStep_albums]

theorem addImagesFold_images (aid : Nat) (l : List (Nat × Nat)) :
    ∀ st : DbState, (l.foldl (addImagesStep aid) st).images = st.images := by
  induction l with
  | nil => intro st; rfl
  | cons p t ih =>
      intro st
      rw [List.foldl_cons, ih, addImagesStep_images]

theorem materializeOne_jobs (u : Int) (imgs : List ImageRow) (db : DbState)
    (a : GeneratedAlbum) : (materializeOne u imgs db a).jobs = db.jobs := by
  unfold materializeOne albumDbCreate albumDbAddImages
  dsimp only
  split
  · exact addImagesFold_jobs _ _ _
  · rfl

theorem materializeOne_images (u : Int) (imgs : List ImageRow) (db : DbState)
    (a : GeneratedAlbum) : (materializeOne u imgs db a).images = db.images := by
  unfold materializeOne albumDbCreate albumDbAddImages
  dsimp only
  split
  · exact addImagesFold_images _ _ _
  · rfl

theorem materializeOne_albums (u : Int) (imgs : List ImageRow) (db : DbState)
    (a : GeneratedAlbum) :
    (materializeOne u imgs db a).albums =
      db.albums ++
        [⟨db.nextAlbumId, u, a.title,
          if a.theme == "" then none else some a.theme⟩] := by
  unfold materializeOne albumDbCreate albumDbAddImages
  dsimp only
  split
  · rw [addImagesFold_albums]
  · rfl

theorem materializeFold_jobs (u : Int) (imgs : List ImageRow)
    (l : List GeneratedAlbum) :
    ∀ db : DbState, (l.foldl (materializeOne u imgs) db).jobs = db.jobs := by
  induction l with
  | nil => intro db; rfl
  | cons a t ih =>
      intro db
      rw [List.foldl_cons, ih, materializeOne_jobs]

theorem materializeFold_images (u : Int) (imgs : List ImageRow)
    (l : List GeneratedAlbum) :
    ∀ db : DbState, (l.foldl (materializeOne u imgs) db).images = db.images := by
  induction l with
  | nil => intro db; rfl
  | cons a t ih =>
      intro db
      rw [List.foldl_cons, ih, materializeOne_images]

theorem materializeAlbums_jobs (u : Int) (imgs : List ImageRow) (db : DbState)
    (prop : AlbumGenerationResult) :
    (materializeAlbums u imgs db prop).jobs = db.jobs :=
  materializeFold_jobs u imgs prop.albums db

theorem materializeFold_albums (u : Int) (imgs : List ImageRow)
    (l : List GeneratedAlbum) :
    ∀ db : DbState, ∃ newRows : List AlbumRow,
      (l.foldl (materializeOne u imgs) db).albums = db.albums ++ newRows ∧
      newRows.length = l.length ∧ ∀ r ∈ newRows, r.user_id = u := by
  induction l with
  | nil =>
      intro db
      exact ⟨[], by simp, rfl, by simp⟩
  | cons a t ih =>
      intro db
      obtain ⟨rows, heq, hlen, hu⟩ := ih (materializeOne u imgs db a)
      refine ⟨⟨db.nextAlbumId, u, a.title,
        if a.theme == "" then none else some a.theme⟩ :: rows, ?_, ?_, ?_⟩
      · rw [List.foldl_cons] at *
        rw [heq, materializeOne_albums]
        simp
      · simpa using hlen
      · intro r hr
        rcases List.mem_cons.mp hr with h | h
        · rw [h]
        · exact hu r h

theorem addImagesFold_append (aid : Nat) (ids : List Nat) :
    ∀ (n : Nat) (db : DbState),
      (∀ l ∈ db.album_images, l.album_id = aid → l.image_id ∉ ids) →
      ids.Nodup →
      ((List.enumFrom n ids).foldl (addImagesStep aid) db) =
        { db with album_images :=
            db.album_images ++ (List.enumFrom n ids).map (fun p => ⟨aid, p.2, p.1⟩) } := by
  induction ids with
  | nil =>
      intro n db h hd
      simp [List.enumFrom]
  | cons x rest ih =>
      intro n db h hd
      have hx : x ∈ x :: rest := List.mem_cons_self x rest
      have hstep : addImagesStep aid db (n, x) =
          { db with album_images := db.album_images ++ [⟨aid, x, n⟩] } := by
        unfold addImagesStep
        rw [if_neg]
        intro hc
        rw [List.any_eq_true] at hc
        obtain ⟨l, hl, hpl⟩ := hc
        have h1 : l.album_id = aid ∧ l.image_id = x := by
          simpa using hpl
        exact h l hl h1.1 (h1.2 ▸ hx)
      rw [show List.enumFrom n (x :: rest) = (n, x) :: List.enumFrom (n + 1) rest from rfl]
      rw [List.foldl_cons, hstep]
      rw [List.nodup_cons] at hd
      rw [ih (n + 1) _ ?_ hd.2]
      · simp [List.append_assoc]
      · intro l hl haid
        rcases List.mem_append.mp hl with hold | hnew
        · exact fun hm => h l hold haid (List.mem_cons_of_mem x hm)
        · have : l = ⟨aid, x, n⟩ := by simpa using hnew
          rw [this]
          exact hd.1

theorem albumDbAddImages_links (db : DbState) (aid : Nat) (ids : List Nat)
    (hfresh : ∀ l ∈ db.album_images, l.album_id ≠ aid)
    (hd : ids.Nodup) :
    (albumDbAddImages db aid ids).album_images =
      db.album_images ++ ids.enum.map (fun p => ⟨aid, p.2, p.1⟩) := by
  unfold albumDbAddImages
  have henum : ids.enum = List.enumFrom 0 ids := rfl
  rw [henum, addImagesFold_append aid ids 0 db
    (fun l hl haid => absurd haid (hfresh l hl)) hd]

/-- C1 amended: for every materialized proposal entry (album id fresh for
the link table, resolved image ids distinct — both hold in the pipeline's
stores), the inserted AlbumImage links carry as `display_order` the index
of the image within the entry's *resolved image list* — the registered
images kept in registry order and filtered to the keys of the entry —
not the position of the image's storage key within the entry's
`image_keys` list; the two agree only when that key list follows the
registry order. -/
theorem materializeOne_links (u : Int) (imgs : List ImageRow) (db : DbState)
    (a : GeneratedAlbum)
    (hfresh : ∀ l ∈ db.album_images, l.album_id ≠ db.nextAlbumId)
    (hnodup : (imgs.map (fun i => i.id)).Nodup) :
    (materializeOne u imgs db a).album_images =
      db.album_images ++
        (((imgs.filter (fun img => a.image_keys.contains img.storage_key)).map
            (fun i => i.id)).enum.map (fun p => ⟨db.nextAlbumId, p.2, p.1⟩)) := by
  unfold materializeOne albumDbCreate
  dsimp only
  split
  · rw [albumDbAddImages_links]
    · exact hfresh
    · have hsub :
          ((imgs.filter (fun img => a.image_keys.contains img.storage_key)).map
            (fun i => i.id)).Sublist (imgs.map (fun i => i.id)) :=
        List.Sublist.map _ (List.filter_sublist imgs)
      exact List.Nodup.sublist hsub hnodup
  · rename_i hneg
    have hz : ((imgs.filter (fun img => a.image_keys.contains img.storage_key)).map
        (fun i => i.id)) = [] := by
      exact List.eq_nil_of_length_eq_zero (Nat.eq_zero_of_not_pos hneg)
    rw [hz]
    simp

theorem imageDbFindByStorageKeys_congr (db1 db2 : DbState) (ks : List String)
    (h : db1.images = db2.images) :
    imageDbFindByStorageKeys db1 ks = imageDbFindByStorageKeys db2 ks := by
  unfold imageDbFindByStorageKeys
  rw [h]

theorem jobDbFindById_congr (db1 db2 : DbState) (id : String)
    (h : db1.jobs = db2.jobs) :
    jobDbFindById db1 id = jobDbFindById db2 id := by
  unfold jobDbFindById
  rw [h]

theorem validateAlbumList_error_iff (l : List ParsedAlbum) :
    (∃ e, validateAlbumList l = .error e) ↔
      ∃ a ∈ l, a.title = "" ∨ a.theme = "" ∨ a.image_keys = none := by
  induction l with
  | nil => simp [validateAlbumList]
  | cons a t ih =>
      unfold validateAlbumList
      by_cases hbad : (a.title == "" || a.theme == "" || a.image_keys.isNone) = true
      · rw [if_pos hbad]
        simp only [beq_iff_eq, Bool.or_eq_true, Option.isNone_iff_eq_none] at hbad
        constructor
        · intro _
          exact ⟨a, List.mem_cons_self a t, by tauto⟩
        · intro _
          exact ⟨"Invalid album structure in AI response", rfl⟩
      · rw [if_neg hbad]
        simp only [beq_iff_eq, Bool.or_eq_true, Option.isNone_iff_eq_none] at hbad
        push_neg at hbad
        rw [ih]
        constructor
        · rintro ⟨x, hx, hprop⟩
          exact ⟨x, List.mem_cons_of_mem a hx, hprop⟩
        · rintro ⟨x, hx, hprop⟩
          rcases List.mem_cons.mp hx with hax | hxt
          · rw [hax] at hprop
            exact absurd hprop (by tauto)
          · exact ⟨x, hxt, hprop⟩

/-! ## Claim C4 -/

/-- C4: a callback with a missing or incorrect `X-API-Secret` header is
answered 401, and an authorized callback whose body fails the zod schema
(jobId not a UUID, userId not a positive integer, or empty imageKeys) is
answered 400; in both cases the store is returned unchanged and no
`jobDb.updateStatus` call is made. -/
theorem auth_and_validation_reject_without_write
    (cs : String) (ug : String → Except String String)
    (ai : Except String ParsedReply) (now : Nat) (sec : Option String)
    (p : RawPayload) (db : DbState) :
    (secretAccepted cs sec = false →
      processPOST cs ug ai now sec p db = ⟨401, none, db, []⟩) ∧
    (secretAccepted cs sec = true → validPayload p = false →
      processPOST cs ug ai now sec p db = ⟨400, none, db, []⟩) := by
  constructor
  · intro h
    unfold processPOST
    rw [h]
    rfl
  · intro h hv
    unfold processPOST
    rw [h, hv]
    rfl

/-- Witness for C4: a wrong secret gets 401 and a malformed job id under
the right secret gets 400, both leaving `exDb` untouched. -/
theorem auth_and_validation_reject_without_write_witness :
    (secretAccepted "sec" (some "wrong") = false ∧
      processPOST "sec" urlOk aiNetworkDown 5 (some "wrong") exPayload exDb =
        ⟨401, none, exDb, []⟩) ∧
    (secretAccepted "sec" (some "sec") = true ∧
      validPayload ⟨"not-a-uuid", 7, ["a.jpg"]⟩ = false ∧
      processPOST "sec" urlOk aiNetworkDown 5 (some "sec")
          ⟨"not-a-uuid", 7, ["a.jpg"]⟩ exDb = ⟨400, none, exDb, []⟩) :=
  ⟨⟨by decide,
    (auth_and_validation_reject_without_write "sec" urlOk aiNetworkDown 5
      (some "wrong") exPayload exDb).1 (by decide)⟩,
   ⟨by decide, by decide,
    (auth_and_validation_reject_without_write "sec" urlOk aiNetworkDown 5
      (some "sec") ⟨"not-a-uuid", 7, ["a.jpg"]⟩ exDb).2 (by decide) (by decide)⟩⟩

/-! ## Claim C7 -/

/-- C7 counterexample: the status route answers 400, not 404, for an id
that is not a well-formed UUID. -/
theorem status_malformed_id_is_400_not_404 :
    (statusGET exDb "not-a-uuid").httpStatus = 400 ∧
    ¬ (statusGET exDb "not-a-uuid").httpStatus = 404 := by
  constructor <;> decide

/-- C7 amended: a malformed job id is answered 400 by the UUID-regex
check, while a well-formed id with no matching job row is answered 404. -/
theorem status_poll_codes (db : DbState) (jobId : String) :
    (isUuid jobId = false → (statusGET db jobId).httpStatus = 400) ∧
    (isUuid jobId = true → jobDbFindById db jobId = none →
      (statusGET db jobId).httpStatus = 404) := by
  constructor
  · intro h
    unfold statusGET
    rw [h]
    rfl
  · intro h hf
    unfold statusGET
    rw [h, hf]
    rfl

/-- Witness for the amended C7: 400 on a malformed id and 404 on an
absent well-formed id, both against `exDb`. -/
theorem status_poll_codes_witness :
    (isUuid "not-a-uuid" = false ∧ (statusGET exDb "not-a-uuid").httpStatus = 400) ∧
    (isUuid "22222222-2222-2222-2222-222222222222" = true ∧
      jobDbFindById exDb "22222222-2222-2222-2222-222222222222" = none ∧
      (statusGET exDb "22222222-2222-2222-2222-222222222222").httpStatus = 404) :=
  ⟨⟨by decide, (status_poll_codes exDb "not-a-uuid").1 (by decide)⟩,
   ⟨by decide, by decide,
    (status_poll_codes exDb "22222222-2222-2222-2222-222222222222").2
      (by decide) (by decide)⟩⟩

/-! ## Claim C3 -/

/-- C3 counterexample: the validation of `generateAlbums` accepts a reply
with an empty album list, an album with whitespace-only title and theme,
and an album with an empty `image_keys` array — none of these raise the
validation failure the claim requires. -/
theorem generateAlbums_accepts_empty_and_blank :
    generateAlbums (.ok ⟨some []⟩) = .ok ⟨[]⟩ ∧
    generateAlbums (.ok ⟨some [⟨" ", " ", some []⟩]⟩) =
      .ok ⟨[⟨" ", " ", []⟩]⟩ := by
  constructor <;> rfl

/-- C3 amended: `generateAlbums` fails on a parsed reply exactly when the
`albums` field is missing or not an array, or some album has an empty
(falsy) title, an empty theme, or an `image_keys` that is not an array;
an empty album list, whitespace-only strings and an empty `image_keys`
array all pass, and a network or parse failure is passed through. -/
theorem generateAlbums_validation_characterization
    (r : ParsedReply) (msg : String) :
    generateAlbums (.error msg) = .error msg ∧
    ((∃ e, generateAlbums (.ok r) = .error e) ↔
      (r.albums = none ∨
        ∃ a ∈ r.albums.getD [], a.title = "" ∨ a.theme = "" ∨ a.image_keys = none)) := by
  constructor
  · rfl
  · obtain ⟨alb⟩ := r
    unfold generateAlbums generateAlbumsValidate
    cases alb with
    | none => simp
    | some l =>
        simp only [Option.getD_some]
        cases hv : validateAlbumList l with
        | error e =>
            have hl : ∃ a ∈ l, a.title = "" ∨ a.theme = "" ∨ a.image_keys = none :=
              (validateAlbumList_error_iff l).mp ⟨e, hv⟩
            simp [hl]
        | ok u =>
            have hl : ¬ ∃ a ∈ l, a.title = "" ∨ a.theme = "" ∨ a.image_keys = none := by
              intro hc
              obtain ⟨e, he⟩ := (validateAlbumList_error_iff l).mpr hc
              rw [hv] at he
              exact Except.noConfusion he
            simp [hl]

/-! ## Claim C8 -/

/-- C8: registering a storage key is idempotent.  Starting from a store
satisfying the unique-key invariant (at most one row per key), the first
`ensure` succeeds, leaves exactly one row for the key, and a second
`ensure` with the same key succeeds returning the very same store — the
conflict is absorbed and the existing row is untouched. -/
theorem ensureImage_idempotent (db : DbState) (u u2 : Int) (key : String)
    (h : countImagesWithKey db key ≤ 1) :
    ∃ db1, ensureImage db u key = .ok db1 ∧
      countImagesWithKey db1 key = 1 ∧
      ensureImage db1 u2 key = .ok db1 := by
  by_cases hex : db.images.any (fun r => r.storage_key == key) = true
  · refine ⟨db, ?_, ?_, ?_⟩
    · unfold ensureImage imageDbCreate
      rw [if_pos hex]
      rfl
    · obtain ⟨r, hr, hkey⟩ := List.any_eq_true.mp hex
      have hmem : r ∈ db.images.filter (fun r => r.storage_key == key) :=
        List.mem_filter.mpr ⟨hr, hkey⟩
      have hpos : 0 < countImagesWithKey db key := by
        unfold countImagesWithKey
        exact List.length_pos.mpr (List.ne_nil_of_mem hmem)
      omega
    · unfold ensureImage imageDbCreate
      rw [if_pos hex]
      rfl
  · have hnone : ∀ r ∈ db.images, ¬ (r.storage_key == key) = true := by
      intro r hr hk
      exact hex (List.any_eq_true.mpr ⟨r, hr, hk⟩)
    have hfil : db.images.filter (fun r => r.storage_key == key) = [] :=
      List.filter_eq_nil_iff.mpr hnone
    refine ⟨{ db with
        images := db.images ++ [⟨db.nextImageId, u, key⟩],
        nextImageId := db.nextImageId + 1 }, ?_, ?_, ?_⟩
    · unfold ensureImage imageDbCreate
      rw [if_neg hex]
    · unfold countImagesWithKey
      simp only [List.filter_append, hfil]
      simp
    · unfold ensureImage imageDbCreate
      rw [if_pos ?_]
      · rfl
      · rw [List.any_append]
        simp

/-- Witness for C8: `exDb` already holds one row for `a.jpg`; both
`ensure` calls are no-ops returning the same store. -/
theorem ensureImage_idempotent_witness :
    countImagesWithKey exDb "a.jpg" ≤ 1 ∧
    ∃ db1, ensureImage exDb 7 "a.jpg" = .ok db1 ∧
      countImagesWithKey db1 "a.jpg" = 1 ∧
      ensureImage db1 9 "a.jpg" = .ok db1 :=
  ⟨by decide, ensureImage_idempotent exDb 7 9 "a.jpg" (by decide)⟩

/-! ## Claim C10 -/

/-- C10: when a valid, authorized callback resolves no Image row for its
keys, the worker raises, the job is transitioned to failed carrying
`No images found for the provided keys` with `completed_at` stamped, the
response is 500, and no album is materialized. -/
theorem empty_resolution_fails_job
    (cs : String) (ug : String → Except String String)
    (ai : Except String ParsedReply) (now : Nat) (sec : Option String)
    (p : RawPayload) (db : DbState) (j : JobRow)
    (hsec : secretAccepted cs sec = true)
    (hval : validPayload p = true)
    (hj : jobDbFindById db p.jobId = some j)
    (hempty : imageDbFindByStorageKeys db p.imageKeys = []) :
    (processPOST cs ug ai now sec p db).httpStatus = 500 ∧
    (∃ j2, jobDbFindById (processPOST cs ug ai now sec p db).db p.jobId = some j2 ∧
      j2.status = .failed ∧
      j2.error_message = some "No images found for the provided keys" ∧
      j2.completed_at = some now) ∧
    (processPOST cs ug ai now sec p db).db.albums = db.albums := by
  have himg1 : imageDbFindByStorageKeys
      (jobDbUpdateStatus db p.jobId .processing none none now).1 p.imageKeys = [] := by
    rw [imageDbFindByStorageKeys_congr _ db _
      (jobDbUpdateStatus_images db p.jobId .processing none none now)]
    exact hempty
  have hrun : processPOST cs ug ai now sec p db =
      ⟨500, none,
        (jobDbUpdateStatus (jobDbUpdateStatus db p.jobId .processing none none now).1
          p.jobId .failed none (some "No images found for the provided keys") now).1,
        [(p.jobId, .processing), (p.jobId, .failed)]⟩ := by
    unfold processPOST
    rw [hsec, hval]
    dsimp only
    rw [himg1]
    rfl
  rw [hrun]
  refine ⟨rfl, ?_, ?_⟩
  · have h1 : jobDbFindById (jobDbUpdateStatus db p.jobId .processing none none now).1
        p.jobId = some (applyStatusUpdate j .processing none none now) :=
      jobDbFindById_update db p.jobId j .processing none none now hj
    have h2 := jobDbFindById_update
      (jobDbUpdateStatus db p.jobId .processing none none now).1 p.jobId
      (applyStatusUpdate j .processing none none now)
      .failed none (some "No images found for the provided keys") now h1
    exact ⟨_, h2, rfl, rfl, rfl⟩
  · rw [jobDbUpdateStatus_albums, jobDbUpdateStatus_albums]

/-- Witness for C10: the job of `exDbNoImages` fails with the
no-images message and the callback is answered 500. -/
theorem empty_resolution_fails_job_witness :
    secretAccepted "sec" (some "sec") = true ∧
    validPayload exPayload = true ∧
    jobDbFindById exDbNoImages exPayload.jobId = some exJob ∧
    imageDbFindByStorageKeys exDbNoImages exPayload.imageKeys = [] ∧
    ((processPOST "sec" urlOk aiNetworkDown 5 (some "sec") exPayload exDbNoImages).httpStatus = 500 ∧
     (∃ j2, jobDbFindById
        (processPOST "sec" urlOk aiNetworkDown 5 (some "sec") exPayload exDbNoImages).db
        exPayload.jobId = some j2 ∧
       j2.status = .failed ∧
       j2.error_message = some "No images found for the provided keys" ∧
       j2.completed_at = some 5) ∧
     (processPOST "sec" urlOk aiNetworkDown 5 (some "sec") exPayload exDbNoImages).db.albums =
       exDbNoImages.albums) :=
  ⟨by decide, by decide, by decide, by decide,
   empty_resolution_fails_job "sec" urlOk aiNetworkDown 5 (some "sec") exPayload
     exDbNoImages exJob (by decide) (by decide) (by decide) (by decide)⟩

/-! ## Claim C5 -/

/-- C5: when a step after the transition to processing raises (here the
download-URL generation rejecting, the representable post-transition
failure other than the absorbed AI error), the job is transitioned to
failed with that error's message as `error_message`, `completed_at` is
stamped, and the endpoint answers 500. -/
theorem post_processing_error_fails_job
    (cs : String) (ug : String → Except String String)
    (ai : Except String ParsedReply) (now : Nat) (sec : Option String)
    (p : RawPayload) (db : DbState) (j : JobRow) (e : String)
    (hsec : secretAccepted cs sec = true)
    (hval : validPayload p = true)
    (hj : jobDbFindById db p.jobId = some j)
    (himg : imageDbFindByStorageKeys db p.imageKeys ≠ [])
    (hurl : resolveUrls ug (imageDbFindByStorageKeys db p.imageKeys) = .error e) :
    (processPOST cs ug ai now sec p db).httpStatus = 500 ∧
    (∃ j2, jobDbFindById (processPOST cs ug ai now sec p db).db p.jobId = some j2 ∧
      j2.status = .failed ∧
      j2.error_message = some e ∧
      j2.completed_at = some now) := by
  have himgEq : imageDbFindByStorageKeys
      (jobDbUpdateStatus db p.jobId .processing none none now).1 p.imageKeys =
      imageDbFindByStorageKeys db p.imageKeys :=
    imageDbFindByStorageKeys_congr _ db _
      (jobDbUpdateStatus_images db p.jobId .processing none none now)
  have hlen : ((imageDbFindByStorageKeys db p.imageKeys).length == 0) = false := by
    rw [beq_eq_false_iff_ne]
    intro h0
    exact himg (List.eq_nil_of_length_eq_zero h0)
  have hrun : processPOST cs ug ai now sec p db =
      ⟨500, none,
        (jobDbUpdateStatus (jobDbUpdateStatus db p.jobId .processing none none now).1
          p.jobId .failed none (some e) now).1,
        [(p.jobId, .processing), (p.jobId, .failed)]⟩ := by
    unfold processPOST
    rw [hsec, hval]
    dsimp only
    rw [himgEq, hlen, hurl]
    rfl
  rw [hrun]
  refine ⟨rfl, ?_⟩
  have h1 : jobDbFindById (jobDbUpdateStatus db p.jobId .processing none none now).1
      p.jobId = some (applyStatusUpdate j .processing none none now) :=
    jobDbFindById_update db p.jobId j .processing none none now hj
  have h2 := jobDbFindById_update
    (jobDbUpdateStatus db p.jobId .processing none none now).1 p.jobId
    (applyStatusUpdate j .processing none none now) .failed none (some e) now h1
  exact ⟨_, h2, rfl, rfl, rfl⟩

/-- Witness for C5: the presigner of `urlDown` rejects, the job of
`exDb` fails with that message, and the callback is answered 500. -/
theorem post_processing_error_fails_job_witness :
    secretAccepted "sec" (some "sec") = true ∧
    validPayload exPayload = true ∧
    jobDbFindById exDb exPayload.jobId = some exJob ∧
    ¬ imageDbFindByStorageKeys exDb exPayload.imageKeys = [] ∧
    resolveUrls urlDown (imageDbFindByStorageKeys exDb exPayload.imageKeys) =
      .error "S3 presign failed" ∧
    ((processPOST "sec" urlDown aiNetworkDown 5 (some "sec") exPayload exDb).httpStatus = 500 ∧
     ∃ j2, jobDbFindById
        (processPOST "sec" urlDown aiNetworkDown 5 (some "sec") exPayload exDb).db
        exPayload.jobId = some j2 ∧
       j2.status = .failed ∧
       j2.error_message = some "S3 presign failed" ∧
       j2.completed_at = some 5) :=
  ⟨by decide, by decide, by decide, by decide, by rfl,
   post_processing_error_fails_job "sec" urlDown aiNetworkDown 5 (some "sec") exPayload
     exDb exJob "S3 presign failed" (by decide) (by decide) (by decide) (by decide)
     (by rfl)⟩

/-! ## Claim C2 -/

/-- C2: whenever the AI adapter fails — network, parse or validation —
and the surrounding steps succeed, the worker substitutes the fallback
proposal: exactly one album whose `image_keys` is the job's submitted
key list, unmodified; the job is still transitioned to completed with
that proposal stored verbatim, and the callback is answered 200. -/
theorem ai_failure_falls_back_and_completes
    (cs : String) (ug : String → Except String String)
    (ai : Except String ParsedReply) (now : Nat) (sec : Option String)
    (p : RawPayload) (db : DbState) (j : JobRow) (e : String)
    (us : List (String × String))
    (hsec : secretAccepted cs sec = true)
    (hval : validPayload p = true)
    (hai : generateAlbums ai = .error e)
    (hj : jobDbFindById db p.jobId = some j)
    (hkeys : p.imageKeys = j.image_keys)
    (himg : imageDbFindByStorageKeys db p.imageKeys ≠ [])
    (hurl : resolveUrls ug (imageDbFindByStorageKeys db p.imageKeys) = .ok us) :
    (processPOST cs ug ai now sec p db).httpStatus = 200 ∧
    (∃ j2, jobDbFindById (processPOST cs ug ai now sec p db).db p.jobId = some j2 ∧
      j2.status = .completed ∧
      j2.result_data = some (createFallbackAlbum j.image_keys)) ∧
    (createFallbackAlbum j.image_keys).albums.map (fun alb => alb.image_keys) =
      [j.image_keys] := by
  have himgEq : imageDbFindByStorageKeys
      (jobDbUpdateStatus db p.jobId .processing none none now).1 p.imageKeys =
      imageDbFindByStorageKeys db p.imageKeys :=
    imageDbFindByStorageKeys_congr _ db _
      (jobDbUpdateStatus_images db p.jobId .processing none none now)
  have hlen : ((imageDbFindByStorageKeys db p.imageKeys).length == 0) = false := by
    rw [beq_eq_false_iff_ne]
    intro h0
    exact himg (List.eq_nil_of_length_eq_zero h0)
  have hprop : effectiveProposal ai p.imageKeys = createFallbackAlbum p.imageKeys := by
    unfold effectiveProposal
    rw [hai]
  have hrun : processPOST cs ug ai now sec p db =
      ⟨200, some (createFallbackAlbum p.imageKeys).albums.length,
        (jobDbUpdateStatus
          (materializeAlbums p.userId (imageDbFindByStorageKeys db p.imageKeys)
            (jobDbUpdateStatus db p.jobId .processing none none now).1
            (createFallbackAlbum p.imageKeys))
          p.jobId .completed (some (createFallbackAlbum p.imageKeys)) none now).1,
        [(p.jobId, .processing), (p.jobId, .completed)]⟩ := by
    unfold processPOST
    rw [hsec, hval]
    dsimp only
    rw [himgEq, hlen, hurl, hprop]
    rfl
  rw [hrun]
  refine ⟨rfl, ?_, ?_⟩
  · have h1 : jobDbFindById (jobDbUpdateStatus db p.jobId .processing none none now).1
        p.jobId = some (applyStatusUpdate j .processing none none now) :=
      jobDbFindById_update db p.jobId j .processing none none now hj
    have h1m : jobDbFindById
        (materializeAlbums p.userId (imageDbFindByStorageKeys db p.imageKeys)
          (jobDbUpdateStatus db p.jobId .processing none none now).1
          (createFallbackAlbum p.imageKeys)) p.jobId =
        some (applyStatusUpdate j .processing none none now) := by
      rw [jobDbFindById_congr _ (jobDbUpdateStatus db p.jobId .processing none none now).1
        _ (materializeAlbums_jobs _ _ _ _)]
      exact h1
    have h2 := jobDbFindById_update
      (materializeAlbums p.userId (imageDbFindByStorageKeys db p.imageKeys)
        (jobDbUpdateStatus db p.jobId .processing none none now).1
        (createFallbackAlbum p.imageKeys))
      p.jobId (applyStatusUpdate j .processing none none now)
      .completed (some (createFallbackAlbum p.imageKeys)) none now h1m
    refine ⟨_, h2, rfl, ?_⟩
    rw [hkeys]
    rfl
  · rfl

/-- Witness for C2: with the network to the model down, `exDb`'s job
completes with the single fallback album over both submitted keys. -/
theorem ai_failure_falls_back_and_completes_witness :
    secretAccepted "sec" (some "sec") = true ∧
    validPayload exPayload = true ∧
    generateAlbums aiNetworkDown = .error "fetch failed" ∧
    jobDbFindById exDb exPayload.jobId = some exJob ∧
    exPayload.imageKeys = exJob.image_keys ∧
    ¬ imageDbFindByStorageKeys exDb exPayload.imageKeys = [] ∧
    resolveUrls urlOk (imageDbFindByStorageKeys exDb exPayload.imageKeys) =
      .ok [("a.jpg", "https://s3/a.jpg"), ("b.jpg", "https://s3/b.jpg")] ∧
    ((processPOST "sec" urlOk aiNetworkDown 5 (some "sec") exPayload exDb).httpStatus = 200 ∧
     (∃ j2, jobDbFindById
        (processPOST "sec" urlOk aiNetworkDown 5 (some "sec") exPayload exDb).db
        exPayload.jobId = some j2 ∧
       j2.status = .completed ∧
       j2.result_data = some (createFallbackAlbum exJob.image_keys)) ∧
     (createFallbackAlbum exJob.image_keys).albums.map (fun alb => alb.image_keys) =
       [exJob.image_keys]) :=
  ⟨by decide, by decide, by rfl, by decide, by decide, by decide, by rfl,
   ai_failure_falls_back_and_completes "sec" urlOk aiNetworkDown 5 (some "sec")
     exPayload exDb exJob "fetch failed"
     [("a.jpg", "https://s3/a.jpg"), ("b.jpg", "https://s3/b.jpg")]
     (by decide) (by decide) (by rfl) (by decide) (by decide) (by decide) (by rfl)⟩

/-! ## Claim C9 -/

/-- C9: an authorized, valid callback whose jobId matches no stored job
is not rejected: the processing update touches zero rows and returns
`none`, the job table is left unchanged, albums owned by the payload's
user are still materialized (one per proposal entry), and the response
is 200. -/
theorem unknown_job_still_succeeds
    (cs : String) (ug : String → Except String String)
    (ai : Except String ParsedReply) (now : Nat) (sec : Option String)
    (p : RawPayload) (db : DbState) (us : List (String × String))
    (hsec : secretAccepted cs sec = true)
    (hval : validPayload p = true)
    (hj : jobDbFindById db p.jobId = none)
    (himg : imageDbFindByStorageKeys db p.imageKeys ≠ [])
    (hurl : resolveUrls ug (imageDbFindByStorageKeys db p.imageKeys) = .ok us) :
    (processPOST cs ug ai now sec p db).httpStatus = 200 ∧
    (jobDbUpdateStatus db p.jobId .processing none none now).2 = none ∧
    (processPOST cs ug ai now sec p db).db.jobs = db.jobs ∧
    ∃ newRows, (processPOST cs ug ai now sec p db).db.albums = db.albums ++ newRows ∧
      newRows.length = (effectiveProposal ai p.imageKeys).albums.length ∧
      ∀ a ∈ newRows, a.user_id = p.userId := by
  have hup : jobDbUpdateStatus db p.jobId .processing none none now = (db, none) :=
    jobDbUpdateStatus_of_missing db p.jobId .processing none none now hj
  have hlen : ((imageDbFindByStorageKeys db p.imageKeys).length == 0) = false := by
    rw [beq_eq_false_iff_ne]
    intro h0
    exact himg (List.eq_nil_of_length_eq_zero h0)
  have hj2 : jobDbFindById
      (materializeAlbums p.userId (imageDbFindByStorageKeys db p.imageKeys) db
        (effectiveProposal ai p.imageKeys)) p.jobId = none := by
    rw [jobDbFindById_congr _ db _ (materializeAlbums_jobs _ _ _ _)]
    exact hj
  have hup2 : jobDbUpdateStatus
      (materializeAlbums p.userId (imageDbFindByStorageKeys db p.imageKeys) db
        (effectiveProposal ai p.imageKeys))
      p.jobId .completed (some (effectiveProposal ai p.imageKeys)) none now =
      (materializeAlbums p.userId (imageDbFindByStorageKeys db p.imageKeys) db
        (effectiveProposal ai p.imageKeys), none) :=
    jobDbUpdateStatus_of_missing _ _ _ _ _ _ hj2
  have hrun : processPOST cs ug ai now sec p db =
      ⟨200, some (effectiveProposal ai p.imageKeys).albums.length,
        materializeAlbums p.userId (imageDbFindByStorageKeys db p.imageKeys) db
          (effectiveProposal ai p.imageKeys),
        [(p.jobId, .processing), (p.jobId, .completed)]⟩ := by
    unfold processPOST
    rw [hsec, hval]
    dsimp only
    rw [hup]
    dsimp only
    rw [hlen, hurl, hup2]
    rfl
  rw [hrun]
  refine ⟨rfl, ?_, ?_, ?_⟩
  · rw [hup]
  · exact materializeAlbums_jobs _ _ _ _
  · exact materializeFold_albums p.userId (imageDbFindByStorageKeys db p.imageKeys)
      (effectiveProposal ai p.imageKeys).albums db

/-- Witness for C9: `exDbNoJob` holds the images but not the job; the
callback still answers 200 and materializes the fallback album while the
job table stays empty. -/
theorem unknown_job_still_succeeds_witness :
    secretAccepted "sec" (some "sec") = true ∧
    validPayload exPayload = true ∧
    jobDbFindById exDbNoJob exPayload.jobId = none ∧
    ¬ imageDbFindByStorageKeys exDbNoJob exPayload.imageKeys = [] ∧
    resolveUrls urlOk (imageDbFindByStorageKeys exDbNoJob exPayload.imageKeys) =
      .ok [("a.jpg", "https://s3/a.jpg"), ("b.jpg", "https://s3/b.jpg")] ∧
    ((processPOST "sec" urlOk aiNetworkDown 5 (some "sec") exPayload exDbNoJob).httpStatus = 200 ∧
     (jobDbUpdateStatus exDbNoJob exPayload.jobId .processing none none 5).2 = none ∧
     (processPOST "sec" urlOk aiNetworkDown 5 (some "sec") exPayload exDbNoJob).db.jobs =
       exDbNoJob.jobs ∧
     ∃ newRows,
       (processPOST "sec" urlOk aiNetworkDown 5 (some "sec") exPayload exDbNoJob).db.albums =
         exDbNoJob.albums ++ newRows ∧
       newRows.length =
         (effectiveProposal aiNetworkDown exPayload.imageKeys).albums.length ∧
       ∀ a ∈ newRows, a.user_id = exPayload.userId) :=
  ⟨by decide, by decide, by decide, by decide, by rfl,
   unknown_job_still_succeeds "sec" urlOk aiNetworkDown 5 (some "sec") exPayload
     exDbNoJob [("a.jpg", "https://s3/a.jpg"), ("b.jpg", "https://s3/b.jpg")]
     (by decide) (by decide) (by decide) (by decide) (by rfl)⟩

/-! ## Claim C6 -/

/-- C6 counterexample: under a duplicate delivery of the same callback —
possible under the at-least-once queue, since `updateStatus` is an
unconditional write — the job's observed status sequence revisits
`processing` after `completed`, which is not a prefix of
`pending, processing, completed-or-failed`. -/
theorem duplicate_delivery_regresses_status :
    JobStatus.pending ::
        (writesFor exJobId firstDelivery ++ writesFor exJobId secondDelivery) =
      [.pending, .processing, .completed, .processing, .completed] ∧
    legalHistory (JobStatus.pending ::
        (writesFor exJobId firstDelivery ++ writesFor exJobId secondDelivery)) = false ∧
    (jobDbFindById exDb exJobId).map (fun j => j.status) = some .pending ∧
    (jobDbFindById firstDelivery.db exJobId).map (fun j => j.status) = some .completed :=
  ⟨by decide, by decide, by decide, by decide⟩

/-- C6 amended: within a single callback delivery the lifecycle holds —
starting from a pending job, the status writes of one invocation extend
`pending` to a prefix of `pending, processing, completed-or-failed`;
regression arises only across duplicate deliveries. -/
theorem single_delivery_history_is_legal
    (cs : String) (ug : String → Except String String)
    (ai : Except String ParsedReply) (now : Nat) (sec : Option String)
    (p : RawPayload) (db : DbState) (j : JobRow)
    (hj : jobDbFindById db p.jobId = some j)
    (hpend : j.status = .pending) :
    legalHistory (j.status ::
        writesFor p.jobId (processPOST cs ug ai now sec p db)) = true := by
  have hw : (processPOST cs ug ai now sec p db).writes = [] ∨
      (processPOST cs ug ai now sec p db).writes =
        [(p.jobId, .processing), (p.jobId, .completed)] ∨
      (processPOST cs ug ai now sec p db).writes =
        [(p.jobId, .processing), (p.jobId, .failed)] := by
    unfold processPOST
    split
    · exact Or.inl rfl
    · split
      · exact Or.inl rfl
      · dsimp only
        split
        · exact Or.inr (Or.inr rfl)
        · split
          · exact Or.inr (Or.inr rfl)
          · exact Or.inr (Or.inl rfl)
  rw [hpend]
  unfold writesFor
  rcases hw with h | h | h <;>
    · rw [h]
      simp [legalHistory]

/-- Witness for the amended C6: a successful fallback run extends the
pending history to `pending, processing, completed`. -/
theorem single_delivery_history_is_legal_witness :
    jobDbFindById exDb exPayload.jobId = some exJob ∧
    exJob.status = .pending ∧
    legalHistory (exJob.status ::
        writesFor exPayload.jobId
          (processPOST "sec" urlOk aiNetworkDown 5 (some "sec") exPayload exDb)) = true :=
  ⟨by decide, by decide,
   single_delivery_history_is_legal "sec" urlOk aiNetworkDown 5 (some "sec")
     exPayload exDb exJob (by decide) (by decide)⟩

/-! ## Claim C1 -/

/-- C1 counterexample: the model proposes one album listing the keys as
`b.jpg, a.jpg`, the reverse of the registry order.  The worker stores the
link for image 1 (`a.jpg`) with `display_order = 0` although `a.jpg` is
at position 1 of the album's key list, so the spec-side reading of the
link order is violated by the run. -/
theorem display_order_ignores_key_list_position :
    (processPOST "sec" urlOk aiPermutedReply 5 (some "sec") exPayload exDb).db.album_images =
      [⟨1, 1, 0⟩, ⟨1, 2, 1⟩] ∧
    (processPOST "sec" urlOk aiPermutedReply 5 (some "sec") exPayload exDb).db.albums =
      [⟨1, 7, "Seaside", some "Blue hour by the shore."⟩] ∧
    specDisplayOrderFromKeyList
      (processPOST "sec" urlOk aiPermutedReply 5 (some "sec") exPayload exDb).db.album_images
      exDb.images 1 ["b.jpg", "a.jpg"] = false ∧
    List.indexOf "a.jpg" ["b.jpg", "a.jpg"] = 1 :=
  ⟨by decide, by decide, by decide, by decide⟩

/-- Witness for the amended C1 at the counterexample's configuration: the
links of the permuted-key album follow the resolved-image order. -/
theorem materializeOne_links_witness :
    (∀ l ∈ exDb.album_images, l.album_id ≠ exDb.nextAlbumId) ∧
    (exDb.images.map (fun i => i.id)).Nodup ∧
    (materializeOne 7 exDb.images exDb
        ⟨"Seaside", "Blue hour by the shore.", ["b.jpg", "a.jpg"]⟩).album_images =
      exDb.album_images ++
        (((exDb.images.filter
            (fun img =>
              (GeneratedAlbum.mk "Seaside" "Blue hour by the shore."
                ["b.jpg", "a.jpg"]).image_keys.contains img.storage_key)).map
          (fun i => i.id)).enum.map (fun p => ⟨exDb.nextAlbumId, p.2, p.1⟩)) :=
  ⟨by decide, by decide,
   materializeOne_links 7 exDb.images exDb
     ⟨"Seaside", "Blue hour by the shore.", ["b.jpg", "a.jpg"]⟩
     (by decide) (by decide)⟩

end Momentarium
